import Mathlib

/-!
Verification of the rebalancing / health-scoring core of the Saros DLMM
management dashboard.

The TypeScript services compute over JS numbers.  All quantities the claims
touch are produced by exact decimal literals, integer bin ids, sums, and a
handful of divisions, so finite values are embedded as exact rationals.  The
one JS-specific behaviour the code relies on is division by zero producing
Infinity / -Infinity / NaN, and those non-finite values failing every `>` and
`<` comparison against a finite threshold except in the signed-infinity
direction.  `JsVal` models exactly that.
-/

namespace Saros

/-- Result of a JS floating-point computation: a finite (exact rational)
value, a signed infinity, or NaN. -/
inductive JsVal where
  | fin (q : ℚ)
  | posInf
  | negInf
  | nan
deriving DecidableEq, Repr

/-- JS division `a / b` of two finite numbers: finite quotient when `b ≠ 0`,
otherwise the signed infinity (or NaN for `0 / 0`) that IEEE-754 prescribes. -/
def jsDiv (a b : ℚ) : JsVal :=
  if b ≠ 0 then JsVal.fin (a / b)
  else if 0 < a then JsVal.posInf
  else if a < 0 then JsVal.negInf
  else JsVal.nan

/-- JS multiplication of a possibly non-finite value by a finite constant. -/
def jsMul (v : JsVal) (c : ℚ) : JsVal :=
  match v with
  | JsVal.fin q => JsVal.fin (q * c)
  | JsVal.posInf => if 0 < c then JsVal.posInf else if c < 0 then JsVal.negInf else JsVal.nan
  | JsVal.negInf => if 0 < c then JsVal.negInf else if c < 0 then JsVal.posInf else JsVal.nan
  | JsVal.nan => JsVal.nan

/-- JS comparison `v > c` against a finite threshold (`NaN > c` is false). -/
def jsGt (v : JsVal) (c : ℚ) : Bool :=
  match v with
  | JsVal.fin q => c < q
  | JsVal.posInf => true
  | JsVal.negInf => false
  | JsVal.nan => false

/-- JS comparison `v < c` against a finite threshold (`NaN < c` is false). -/
def jsLt (v : JsVal) (c : ℚ) : Bool :=
  match v with
  | JsVal.fin q => q < c
  | JsVal.posInf => false
  | JsVal.negInf => true
  | JsVal.nan => false

/-- A JS value is finite when it is neither an infinity nor NaN. -/
def JsVal.isFinite : JsVal → Bool
  | JsVal.fin _ => true
  | _ => false

/-- Health grade of a position, as the string union in the source. -/
inductive Health where
  | Excellent
  | Good
  | Fair
  | Poor
deriving DecidableEq, Repr

/-- Numeric rank of a health grade: Poor < Fair < Good < Excellent. -/
def healthRank : Health → ℕ
  | Health.Poor => 0
  | Health.Fair => 1
  | Health.Good => 2
  | Health.Excellent => 3

namespace SarosApiService

/-- `SarosApiService.calculateHealth` (also `WalletService.calculateHealth`):
the unguarded variant.  `range = 0` makes `minDistance / range` a signed
infinity or NaN, which every threshold comparison then rejects. -/
def calculateHealth (activeBin lowerBin upperBin : ℤ) : Health :=
  let range : ℚ := (upperBin : ℚ) - (lowerBin : ℚ)
  let distanceFromLower : ℚ := (activeBin : ℚ) - (lowerBin : ℚ)
  let distanceFromUpper : ℚ := (upperBin : ℚ) - (activeBin : ℚ)
  let minDistance : ℚ := min distanceFromLower distanceFromUpper
  let healthScore : JsVal := jsMul (jsDiv minDistance range) 100
  if jsGt healthScore 30 then Health.Excellent
  else if jsGt healthScore 20 then Health.Good
  else if jsGt healthScore 10 then Health.Fair
  else Health.Poor

end SarosApiService

namespace SarosSdkService

/-- `SarosSdkService.calculateHealth`: the variant with the explicit
`range === 0` guard; after the guard the division is finite. -/
def calculateHealth (activeBin lowerBin upperBin : ℤ) : Health :=
  let range : ℚ := (upperBin : ℚ) - (lowerBin : ℚ)
  if range = 0 then Health.Poor
  else
    let distanceFromLower : ℚ := (activeBin : ℚ) - (lowerBin : ℚ)
    let distanceFromUpper : ℚ := (upperBin : ℚ) - (activeBin : ℚ)
    let minDistance : ℚ := min distanceFromLower distanceFromUpper
    let healthScore : ℚ := minDistance / range * 100
    if 30 < healthScore then Health.Excellent
    else if 20 < healthScore then Health.Good
    else if 10 < healthScore then Health.Fair
    else Health.Poor

end SarosSdkService

/-- Threshold classifier applied to a finite health score. -/
def gradeOfScore (q : ℚ) : Health :=
  if 30 < q then Health.Excellent
  else if 20 < q then Health.Good
  else if 10 < q then Health.Fair
  else Health.Poor

/-- When the range is nonzero the unguarded classifier computes the finite
score `minDistance / range * 100` and classifies it by thresholds. -/
lemma calculateHealth_eq_gradeOfScore (activeBin lowerBin upperBin : ℤ)
    (h : ((upperBin : ℚ) - (lowerBin : ℚ)) ≠ 0) :
    SarosApiService.calculateHealth activeBin lowerBin upperBin
      = gradeOfScore (min ((activeBin : ℚ) - (lowerBin : ℚ)) ((upperBin : ℚ) - (activeBin : ℚ))
          / ((upperBin : ℚ) - (lowerBin : ℚ)) * 100) := by
  unfold SarosApiService.calculateHealth gradeOfScore
  simp only [jsDiv, jsMul, jsGt, if_pos h, decide_eq_true_eq]

/-- The threshold classifier is monotone: a larger score never gets a
strictly smaller grade. -/
lemma gradeOfScore_mono {q₁ q₂ : ℚ} (h : q₁ ≤ q₂) :
    healthRank (gradeOfScore q₁) ≤ healthRank (gradeOfScore q₂) := by
  unfold gradeOfScore
  split_ifs <;> simp [healthRank] <;> linarith

/-- C3: for every bin id `b` and every active bin id `a`, both health
classifiers return `Poor` on the degenerate zero-width range `[b, b]`.  The
guarded variant returns it via the explicit `range === 0` branch; the
unguarded variant divides by zero, getting `-Infinity` or `NaN`, and every
threshold test fails. -/
theorem degenerate_range_is_poor (b a : ℤ) :
    SarosApiService.calculateHealth a b b = Health.Poor ∧
    SarosSdkService.calculateHealth a b b = Health.Poor := by
  constructor
  · unfold SarosApiService.calculateHealth
    rcases lt_trichotomy ((a : ℚ) - (b : ℚ)) 0 with hd | hd | hd
    · have hm : min ((a : ℚ) - (b : ℚ)) ((b : ℚ) - (a : ℚ)) < 0 :=
        lt_of_le_of_lt (min_le_left _ _) hd
      simp [jsDiv, jsMul, jsGt, sub_self, not_lt.mpr hm.le, hm]
    · have hm : min ((a : ℚ) - (b : ℚ)) ((b : ℚ) - (a : ℚ)) = 0 := by
        have hd' : (b : ℚ) - (a : ℚ) = 0 := by linarith
        simp [hd, hd']
      simp [jsDiv, jsMul, jsGt, sub_self, hm]
    · have hm : min ((a : ℚ) - (b : ℚ)) ((b : ℚ) - (a : ℚ)) < 0 := by
        have : (b : ℚ) - (a : ℚ) < 0 := by linarith
        exact lt_of_le_of_lt (min_le_right _ _) this
      simp [jsDiv, jsMul, jsGt, sub_self, not_lt.mpr hm.le, hm]
  · unfold SarosSdkService.calculateHealth
    simp [sub_self]

/-- C4: for every valid range `lower ≤ upper` and every active bin strictly
outside `[lower, upper]`, both classifiers return `Poor`, however far outside
the active bin lies: the minimum edge distance is negative, so the score is
negative (or `-Infinity` for a zero-width range) and fails every threshold. -/
theorem out_of_range_is_poor (activeBin lowerBin upperBin : ℤ)
    (hle : lowerBin ≤ upperBin)
    (hout : activeBin < lowerBin ∨ upperBin < activeBin) :
    SarosApiService.calculateHealth activeBin lowerBin upperBin = Health.Poor ∧
    SarosSdkService.calculateHealth activeBin lowerBin upperBin = Health.Poor := by
  have hm : min ((activeBin : ℚ) - (lowerBin : ℚ)) ((upperBin : ℚ) - (activeBin : ℚ)) < 0 := by
    rcases hout with h | h
    · have hq : (activeBin : ℚ) < (lowerBin : ℚ) := by exact_mod_cast h
      exact lt_of_le_of_lt (min_le_left _ _) (by linarith)
    · have hq : (upperBin : ℚ) < (activeBin : ℚ) := by exact_mod_cast h
      exact lt_of_le_of_lt (min_le_right _ _) (by linarith)
  have hr : (0 : ℚ) ≤ (upperBin : ℚ) - (lowerBin : ℚ) := by
    have hq : (lowerBin : ℚ) ≤ (upperBin : ℚ) := by exact_mod_cast hle
    linarith
  constructor
  · rcases eq_or_lt_of_le hr with hr0 | hrpos
    · unfold SarosApiService.calculateHealth
      simp [jsDiv, jsMul, jsGt, ← hr0, not_lt.mpr hm.le, hm]
    · rw [calculateHealth_eq_gradeOfScore _ _ _ (ne_of_gt hrpos)]
      have hscore : min ((activeBin : ℚ) - (lowerBin : ℚ)) ((upperBin : ℚ) - (activeBin : ℚ))
          / ((upperBin : ℚ) - (lowerBin : ℚ)) * 100 < 0 := by
        have hq : min ((activeBin : ℚ) - (lowerBin : ℚ)) ((upperBin : ℚ) - (activeBin : ℚ))
            / ((upperBin : ℚ) - (lowerBin : ℚ)) < 0 := div_neg_of_neg_of_pos hm hrpos
        linarith
      unfold gradeOfScore
      split_ifs with h1 h2 h3
      · linarith
      · linarith
      · linarith
      · rfl
  · unfold SarosSdkService.calculateHealth
    rcases eq_or_lt_of_le hr with hr0 | hrpos
    · simp [← hr0]
    · have hne : ((upperBin : ℚ) - (lowerBin : ℚ)) ≠ 0 := ne_of_gt hrpos
      have hscore : min ((activeBin : ℚ) - (lowerBin : ℚ)) ((upperBin : ℚ) - (activeBin : ℚ))
          / ((upperBin : ℚ) - (lowerBin : ℚ)) * 100 < 0 := by
        have hq : min ((activeBin : ℚ) - (lowerBin : ℚ)) ((upperBin : ℚ) - (activeBin : ℚ))
            / ((upperBin : ℚ) - (lowerBin : ℚ)) < 0 := div_neg_of_neg_of_pos hm hrpos
        linarith
      simp only [if_neg hne]
      split_ifs with h1 h2 h3
      · linarith
      · linarith
      · linarith
      · rfl

/-- Witness for C4 at a concrete out-of-range input. -/
theorem out_of_range_is_poor_witness :
    SarosApiService.calculateHealth 50 100 120 = Health.Poor ∧
    SarosSdkService.calculateHealth 50 100 120 = Health.Poor :=
  out_of_range_is_poor 50 100 120 (by decide) (Or.inl (by decide))

/-- C5: on a fixed positive-width range, the grade of the unguarded
classifier is monotonically non-decreasing in the minimum distance of the
(in-range) active bin to a range edge. -/
theorem health_monotone_in_min_distance (lowerBin upperBin a₁ a₂ : ℤ)
    (hrange : 0 < upperBin - lowerBin)
    (h1l : lowerBin ≤ a₁) (h1u : a₁ ≤ upperBin)
    (h2l : lowerBin ≤ a₂) (h2u : a₂ ≤ upperBin)
    (hmin : min (a₁ - lowerBin) (upperBin - a₁) ≤ min (a₂ - lowerBin) (upperBin - a₂)) :
    healthRank (SarosApiService.calculateHealth a₁ lowerBin upperBin)
      ≤ healthRank (SarosApiService.calculateHealth a₂ lowerBin upperBin) := by
  have hrq : (0 : ℚ) < (upperBin : ℚ) - (lowerBin : ℚ) := by
    have hq : ((lowerBin : ℚ)) < (upperBin : ℚ) := by exact_mod_cast lt_of_sub_pos hrange
    linarith
  rw [calculateHealth_eq_gradeOfScore _ _ _ (ne_of_gt hrq),
    calculateHealth_eq_gradeOfScore _ _ _ (ne_of_gt hrq)]
  apply gradeOfScore_mono
  have hminq : min ((a₁ : ℚ) - (lowerBin : ℚ)) ((upperBin : ℚ) - (a₁ : ℚ))
      ≤ min ((a₂ : ℚ) - (lowerBin : ℚ)) ((upperBin : ℚ) - (a₂ : ℚ)) := by
    have hq : ((min (a₁ - lowerBin) (upperBin - a₁) : ℤ) : ℚ)
        ≤ ((min (a₂ - lowerBin) (upperBin - a₂) : ℤ) : ℚ) := by exact_mod_cast hmin
    push_cast at hq
    simpa using hq
  have hdiv : min ((a₁ : ℚ) - (lowerBin : ℚ)) ((upperBin : ℚ) - (a₁ : ℚ))
        / ((upperBin : ℚ) - (lowerBin : ℚ))
      ≤ min ((a₂ : ℚ) - (lowerBin : ℚ)) ((upperBin : ℚ) - (a₂ : ℚ))
        / ((upperBin : ℚ) - (lowerBin : ℚ)) := by gcongr
  linarith

/-- Witness for C5 at a concrete pair of in-range active bins. -/
theorem health_monotone_in_min_distance_witness :
    healthRank (SarosApiService.calculateHealth 1 0 20)
      ≤ healthRank (SarosApiService.calculateHealth 10 0 20) :=
  health_monotone_in_min_distance 0 20 1 10 (by decide) (by decide) (by decide)
    (by decide) (by decide) (by decide)

/-! ### Data model of the recommendation engine

Only the fields the embedded functions actually read are carried;
presentation-only fields (pair label, token symbols, dates, ...) are omitted.
`binDistribution` is `Option`-valued: the TypeScript type declares
`BinDistribution[]`, but positions flow in from `any`-typed API/SDK
responses, so at runtime the field can be `undefined`; touching it then
throws, which is exactly the malformed-position case the engine's per-position
`try/catch` isolates. -/

/-- One bin of a position's liquidity distribution. -/
structure BinDistribution where
  binId : ℤ
  price : ℚ
  liquidityX : ℚ
  liquidityY : ℚ
deriving DecidableEq, Repr, Inhabited

/-- Price-domain range of a position (`priceRange` in the source). -/
structure PriceRange where
  min : ℚ
  max : ℚ
  current : ℚ
deriving DecidableEq, Repr, Inhabited

/-- A liquidity position snapshot. -/
structure Position where
  id : String
  lowerBinId : ℤ
  upperBinId : ℤ
  currentValue : ℚ
  totalLiquidity : ℚ
  unclaimedFees : ℚ
  pnl : ℚ
  pnlPercentage : ℚ
  apr : ℚ
  currentAPY : ℚ
  priceRange : PriceRange
  binDistribution : Option (List BinDistribution)
deriving DecidableEq, Repr, Inhabited

/-- Recommendation type union from the source. -/
inductive RecType where
  | rebalance
  | expand
  | narrow
  | exit
deriving DecidableEq, Repr

/-- Recommendation priority union from the source. -/
inductive Priority where
  | high
  | medium
  | low
deriving DecidableEq, Repr

/-- The `expectedImpact` triple attached to every recommendation. -/
structure ExpectedImpact where
  feesIncrease : ℚ
  ilReduction : ℚ
  confidenceScore : ℚ
deriving DecidableEq, Repr

/-- The `executionParams` payloads built by `SarosApiService`. -/
inductive ApiExecutionParams where
  | shiftUp (suggestedMin suggestedMax suggestedLowerBinId suggestedUpperBinId : ℤ)
  | addLiquidity
  | shiftDown
deriving DecidableEq, Repr

/-- A recommendation as built by `SarosApiService.generateRebalanceRecommendations`. -/
structure RebalanceRecommendation where
  id : String
  positionId : String
  type : RecType
  priority : Priority
  reason : String
  expectedImpact : ExpectedImpact
  suggestedAction : String
  executionParams : ApiExecutionParams
deriving DecidableEq, Repr

/-- JS `Number.prototype.toFixed(2)`: decimal rendering with two fractional
digits.  Exact-half ties can round differently in IEEE doubles; no claim
depends on a tie. -/
def toFixed2 (q : ℚ) : String :=
  let scaled : ℤ := round (q * 100)
  let sign : String := if scaled < 0 then "-" else ""
  let n : ℕ := scaled.natAbs
  sign ++ toString (n / 100) ++ "." ++ (if n % 100 < 10 then "0" else "") ++ toString (n % 100)

namespace SarosApiService

/-- `SarosApiService.findActiveBin`: first bin with strictly positive
liquidity on both sides; otherwise the middle element by index; `0` for an
empty distribution. -/
def findActiveBin (distribution : List BinDistribution) : ℤ :=
  if distribution.length = 0 then 0
  else
    match distribution.filter (fun b => 0 < b.liquidityX && 0 < b.liquidityY) with
    | b :: _ => b.binId
    | [] => (distribution.getD (distribution.length / 2) default).binId

/-- The body of the per-position `try` block of
`generateRebalanceRecommendations`: the three independent rules, evaluated in
order.  `now` is the directly observed `Date.now()` value that the source
embeds into recommendation ids.  An `undefined` `binDistribution` throws
(inside `findActiveBin`, before any recommendation is pushed); that is the
`Except.error` branch. -/
def evalPositionRules (now : ℕ) (position : Position) : Except String (List RebalanceRecommendation) :=
  match position.binDistribution with
  | Option.none =>
    Except.error ("TypeError reading length of undefined binDistribution of position " ++ position.id)
  | Option.some binDistribution =>
    let activeBinId := findActiveBin binDistribution
    let isOutOfRange : Bool := activeBinId < position.lowerBinId || position.upperBinId < activeBinId
    let outOfRangeRecs : List RebalanceRecommendation :=
      if isOutOfRange then
        [{ id := "rebalance_" ++ position.id ++ "_" ++ toString now,
           positionId := position.id,
           type := RecType.rebalance,
           priority := Priority.high,
           reason := "Position is out of active range. Current active bin: " ++ toString activeBinId
             ++ ", Your range: " ++ toString position.lowerBinId ++ "-" ++ toString position.upperBinId,
           expectedImpact := { feesIncrease := 5.0, ilReduction := 2.0, confidenceScore := 0.85 },
           suggestedAction := "Rebalance to include active bin",
           executionParams := ApiExecutionParams.shiftUp (activeBinId - 10) (activeBinId + 10)
             (activeBinId - 10) (activeBinId + 10) }]
      else []
    let feeRecs : List RebalanceRecommendation :=
      if 50 < position.unclaimedFees then
        [{ id := "fees_" ++ position.id ++ "_" ++ toString now,
           positionId := position.id,
           type := RecType.expand,
           priority := Priority.medium,
           reason := "High unclaimed fees: $" ++ toFixed2 position.unclaimedFees,
           expectedImpact := { feesIncrease := 2.5, ilReduction := 0.5, confidenceScore := 0.75 },
           suggestedAction := "Consider compounding fees back into position",
           executionParams := ApiExecutionParams.addLiquidity }]
      else []
    let lossRecs : List RebalanceRecommendation :=
      if position.pnlPercentage < -10 then
        [{ id := "close_" ++ position.id ++ "_" ++ toString now,
           positionId := position.id,
           type := RecType.exit,
           priority := Priority.high,
           reason := "Significant loss: " ++ toFixed2 position.pnlPercentage ++ "%",
           expectedImpact := { feesIncrease := 0, ilReduction := 10.0, confidenceScore := 0.9 },
           suggestedAction := "Consider closing position and reallocating capital",
           executionParams := ApiExecutionParams.shiftDown }]
      else []
    Except.ok (outOfRangeRecs ++ feeRecs ++ lossRecs)

/-- Recommendations one position contributes: its rule output, or nothing
when its evaluation threw (the `catch` only logs). -/
def ruleRecs (now : ℕ) (position : Position) : List RebalanceRecommendation :=
  match evalPositionRules now position with
  | Except.ok recs => recs
  | Except.error _ => []

/-- Concatenation of every position's contribution, in input order. -/
def perPositionRecs (now : ℕ) : List Position → List RebalanceRecommendation
  | [] => []
  | p :: ps => ruleRecs now p ++ perPositionRecs now ps

/-- `SarosApiService.generateRebalanceRecommendations`: the `for` loop over
positions, pushing each position's rule output, with the per-position
`try/catch`.  Note the source applies no final sort. -/
def generateRebalanceRecommendations (now : ℕ) (positions : List Position) :
    List RebalanceRecommendation :=
  positions.foldl (fun recommendations position =>
    match evalPositionRules now position with
    | Except.ok newRecs => recommendations ++ newRecs
    | Except.error _ => recommendations) []

lemma generate_foldl (now : ℕ) (positions : List Position)
    (acc : List RebalanceRecommendation) :
    positions.foldl (fun recommendations position =>
      match evalPositionRules now position with
      | Except.ok newRecs => recommendations ++ newRecs
      | Except.error _ => recommendations) acc
      = acc ++ perPositionRecs now positions := by
  induction positions generalizing acc with
  | nil => simp [perPositionRecs]
  | cons p ps ih =>
    rw [List.foldl_cons, ih]
    cases h : evalPositionRules now p with
    | ok recs => simp [perPositionRecs, ruleRecs, h]
    | error e => simp [perPositionRecs, ruleRecs, h]

/-- The loop produces exactly the per-position contributions, concatenated in
input order. -/
lemma generate_eq_perPositionRecs (now : ℕ) (positions : List Position) :
    generateRebalanceRecommendations now positions = perPositionRecs now positions := by
  simpa using generate_foldl now positions []

lemma perPositionRecs_append (now : ℕ) (xs ys : List Position) :
    perPositionRecs now (xs ++ ys) = perPositionRecs now xs ++ perPositionRecs now ys := by
  induction xs with
  | nil => simp [perPositionRecs]
  | cons p ps ih => simp [perPositionRecs, ih]

end SarosApiService

/-! ### Concrete fixtures used by counterexamples and witnesses -/

/-- In-range position whose only firing rule is the fee rule
(`unclaimedFees = 75 > 50`). -/
def feePosition : Position :=
  { id := "pos-fee", lowerBinId := 100, upperBinId := 120,
    currentValue := 1000, totalLiquidity := 1000, unclaimedFees := 75,
    pnl := 0, pnlPercentage := 0, apr := 10, currentAPY := 10,
    priceRange := { min := 95, max := 105, current := 100 },
    binDistribution := Option.some
      [{ binId := 110, price := 100, liquidityX := 1, liquidityY := 1 }] }

/-- Out-of-range position whose only firing rule is the out-of-range rule
(true active bin 50, range 100-120). -/
def outOfRangePosition : Position :=
  { id := "pos-oor", lowerBinId := 100, upperBinId := 120,
    currentValue := 1000, totalLiquidity := 1000, unclaimedFees := 0,
    pnl := 0, pnlPercentage := 0, apr := 10, currentAPY := 10,
    priceRange := { min := 95, max := 105, current := 100 },
    binDistribution := Option.some
      [{ binId := 50, price := 100, liquidityX := 1, liquidityY := 1 }] }

/-- The rule-independence position of the spec: out of range (true active
bin 50 against range 100-120), `unclaimedFees = 75 > 50`, and
`pnlPercentage = -15 < -10`. -/
def ruleIndependencePosition : Position :=
  { id := "pos-all-rules", lowerBinId := 100, upperBinId := 120,
    currentValue := 850, totalLiquidity := 1000, unclaimedFees := 75,
    pnl := -150, pnlPercentage := -15, apr := 10, currentAPY := 10,
    priceRange := { min := 95, max := 105, current := 100 },
    binDistribution := Option.some
      [{ binId := 50, price := 100, liquidityX := 1, liquidityY := 1 }] }

/-- Position whose `binDistribution` is `undefined` at runtime: evaluating it
throws before any rule can push a recommendation. -/
def malformedPosition : Position :=
  { id := "pos-malformed", lowerBinId := 100, upperBinId := 120,
    currentValue := 1000, totalLiquidity := 1000, unclaimedFees := 75,
    pnl := -150, pnlPercentage := -15, apr := 10, currentAPY := 10,
    priceRange := { min := 95, max := 105, current := 100 },
    binDistribution := Option.none }

/-- C6: the single rule-independence position yields exactly three
recommendations in the same run - rebalance/high, expand/medium, exit/high -
so the three rules fire independently. -/
theorem three_rules_fire_independently :
    (SarosApiService.generateRebalanceRecommendations 0 [ruleIndependencePosition]).map
        (fun r => (r.type, r.priority))
      = [(RecType.rebalance, Priority.high), (RecType.expand, Priority.medium),
         (RecType.exit, Priority.high)] := by
  decide

/-- C8: when evaluating one position throws, the loop catches the exception
at position granularity: the run does not abort, the malformed position
contributes zero recommendations, and the output is exactly the per-position
contributions of the remaining positions, each what it would yield alone. -/
theorem per_position_failure_isolation (now : ℕ) (xs ys : List Position) (bad : Position)
    (hbad : ∃ e, SarosApiService.evalPositionRules now bad = Except.error e) :
    SarosApiService.generateRebalanceRecommendations now (xs ++ bad :: ys)
        = SarosApiService.generateRebalanceRecommendations now xs
          ++ SarosApiService.generateRebalanceRecommendations now ys ∧
    SarosApiService.generateRebalanceRecommendations now (xs ++ bad :: ys)
        = SarosApiService.perPositionRecs now xs ++ SarosApiService.perPositionRecs now ys ∧
    SarosApiService.generateRebalanceRecommendations now [bad] = [] := by
  obtain ⟨e, he⟩ := hbad
  have hzero : SarosApiService.ruleRecs now bad = [] := by
    simp [SarosApiService.ruleRecs, he]
  refine ⟨?_, ?_, ?_⟩ <;>
    simp [SarosApiService.generate_eq_perPositionRecs, SarosApiService.perPositionRecs_append,
      SarosApiService.perPositionRecs, hzero]

/-- Witness for C8: a malformed position between two healthy ones. -/
theorem per_position_failure_isolation_witness :
    SarosApiService.generateRebalanceRecommendations 0
        [feePosition, malformedPosition, outOfRangePosition]
        = SarosApiService.generateRebalanceRecommendations 0 [feePosition]
          ++ SarosApiService.generateRebalanceRecommendations 0 [outOfRangePosition] ∧
    SarosApiService.generateRebalanceRecommendations 0
        [feePosition, malformedPosition, outOfRangePosition]
        = SarosApiService.perPositionRecs 0 [feePosition]
          ++ SarosApiService.perPositionRecs 0 [outOfRangePosition] ∧
    SarosApiService.generateRebalanceRecommendations 0 [malformedPosition] = [] :=
  per_position_failure_isolation 0 [feePosition] [outOfRangePosition] malformedPosition
    ⟨_, rfl⟩

/-- Erase the only timestamp-dependent field of a recommendation. -/
def stripRecId (r : RebalanceRecommendation) : RebalanceRecommendation :=
  { r with id := "" }

lemma ruleRecs_stripRecId (t₁ t₂ : ℕ) (p : Position) :
    (SarosApiService.ruleRecs t₁ p).map stripRecId
      = (SarosApiService.ruleRecs t₂ p).map stripRecId := by
  unfold SarosApiService.ruleRecs SarosApiService.evalPositionRules
  cases p.binDistribution with
  | none => rfl
  | some d =>
    dsimp only
    split_ifs <;> rfl

/-- C2 (amended): two runs over the same position array agree on every field
of every recommendation except `id`, which embeds the run's `Date.now()`
timestamp; in particular two runs observing the same clock value are fully
identical. -/
theorem generate_deterministic_up_to_id (t₁ t₂ : ℕ) (positions : List Position) :
    (SarosApiService.generateRebalanceRecommendations t₁ positions).map stripRecId
      = (SarosApiService.generateRebalanceRecommendations t₂ positions).map stripRecId := by
  rw [SarosApiService.generate_eq_perPositionRecs, SarosApiService.generate_eq_perPositionRecs]
  induction positions with
  | nil => rfl
  | cons p ps ih =>
    simp only [SarosApiService.perPositionRecs, List.map_append, ih,
      ruleRecs_stripRecId t₁ t₂ p]

/-- Counterexample to C2 as stated: the same one-position array run at
`Date.now() = 0` and at `Date.now() = 1` yields recommendation lists that are
not field-for-field identical (their ids differ). -/
theorem generate_not_identical_across_calls :
    SarosApiService.generateRebalanceRecommendations 0 [feePosition]
      ≠ SarosApiService.generateRebalanceRecommendations 1 [feePosition] := by
  decide

/-! ### The RealSarosService variant of the recommendation engine -/

/-- A price range pair as used in `executionParams`. -/
structure QRange where
  min : ℚ
  max : ℚ
deriving DecidableEq, Repr

/-- Execution direction union used by `RealSarosService`. -/
inductive RealExecutionType where
  | shift_up
  | shift_down
deriving DecidableEq, Repr

/-- `executionParams` payload built by `RealSarosService`. -/
structure RealExecutionParams where
  type : RealExecutionType
  currentRange : QRange
  suggestedRange : QRange
deriving DecidableEq, Repr

/-- A recommendation as built by `RealSarosService.generateRebalanceRecommendations`. -/
structure RealRecommendation where
  positionId : String
  type : RecType
  priority : Priority
  reason : String
  expectedImpact : ExpectedImpact
  suggestedAction : String
  executionParams : Option RealExecutionParams
deriving DecidableEq, Repr

namespace RealSarosService

/-- The per-position body of `RealSarosService.generateRebalanceRecommendations`:
price-domain range-utilization triggers.  `rangeUtilization` divides by
`max - min`, which JS lets be zero, hence `jsDiv`. -/
def evalPosition (position : Position) : Option RealRecommendation :=
  let rmin := position.priceRange.min
  let rmax := position.priceRange.max
  let current := position.priceRange.current
  let rangeUtilization := jsDiv (current - rmin) (rmax - rmin)
  if jsLt rangeUtilization 0.1 then
    Option.some
      { positionId := position.id, type := RecType.rebalance, priority := Priority.high,
        reason := "Price near lower bound - consider shifting range up",
        expectedImpact := { feesIncrease := 0.4, ilReduction := 0.2, confidenceScore := 0.85 },
        suggestedAction := "Shift range up to " ++ toFixed2 (current * 0.95) ++ " - "
          ++ toFixed2 (current * 1.15),
        executionParams := Option.some
          { type := RealExecutionType.shift_up,
            currentRange := { min := rmin, max := rmax },
            suggestedRange := { min := current * 0.95, max := current * 1.15 } } }
  else if jsGt rangeUtilization 0.9 then
    Option.some
      { positionId := position.id, type := RecType.rebalance, priority := Priority.high,
        reason := "Price near upper bound - consider shifting range down",
        expectedImpact := { feesIncrease := 0.4, ilReduction := 0.2, confidenceScore := 0.85 },
        suggestedAction := "Shift range down to " ++ toFixed2 (current * 0.85) ++ " - "
          ++ toFixed2 (current * 1.05),
        executionParams := Option.some
          { type := RealExecutionType.shift_down,
            currentRange := { min := rmin, max := rmax },
            suggestedRange := { min := current * 0.85, max := current * 1.05 } } }
  else if jsLt rangeUtilization 0.2 || jsGt rangeUtilization 0.8 then
    Option.some
      { positionId := position.id, type := RecType.expand, priority := Priority.medium,
        reason := "Consider adding liquidity to active bins",
        expectedImpact := { feesIncrease := 0.2, ilReduction := 0.1, confidenceScore := 0.7 },
        suggestedAction := "Add liquidity to bins closer to current price",
        executionParams := Option.none }
  else
    Option.none

/-- The loop of `RealSarosService.generateRebalanceRecommendations` before
the final sort: one optional recommendation per position, in input order. -/
def recommendationPass (positions : List Position) : List RealRecommendation :=
  positions.foldl (fun recommendations position =>
    match evalPosition position with
    | Option.some r => recommendations ++ [r]
    | Option.none => recommendations) []

/-- The source's `priorityOrder` weight table: high 3, medium 2, low 1. -/
def priorityOrder : Priority → ℕ
  | Priority.high => 3
  | Priority.medium => 2
  | Priority.low => 1

/-- Stable insertion step for the descending-priority sort: a new element
goes before the first element of strictly smaller weight, after every earlier
element of greater or equal weight. -/
def insertByPriority (r : RealRecommendation) :
    List RealRecommendation → List RealRecommendation
  | [] => [r]
  | x :: xs =>
    if priorityOrder x.priority ≤ priorityOrder r.priority then r :: x :: xs
    else x :: insertByPriority r xs

/-- Model of `recommendations.sort((a, b) => priorityOrder[b.priority] -
priorityOrder[a.priority])`.  `Array.prototype.sort` is stable (ES2019), and a
stable sort under a total preorder comparator is unique, so this stable
insertion sort computes exactly the JS result. -/
def sortByPriority : List RealRecommendation → List RealRecommendation
  | [] => []
  | x :: xs => insertByPriority x (sortByPriority xs)

/-- `RealSarosService.generateRebalanceRecommendations`: the per-position
pass followed by the stable priority sort. -/
def generateRebalanceRecommendations (positions : List Position) :
    List RealRecommendation :=
  sortByPriority (recommendationPass positions)

lemma mem_insertByPriority (r y : RealRecommendation) (l : List RealRecommendation) :
    y ∈ insertByPriority r l ↔ y = r ∨ y ∈ l := by
  induction l with
  | nil => simp [insertByPriority]
  | cons x xs ih =>
    unfold insertByPriority
    split_ifs with h
    · simp [List.mem_cons]
    · simp only [List.mem_cons, ih]
      tauto

lemma pairwise_insertByPriority (r : RealRecommendation) (l : List RealRecommendation)
    (hl : l.Pairwise (fun a b => priorityOrder b.priority ≤ priorityOrder a.priority)) :
    (insertByPriority r l).Pairwise
      (fun a b => priorityOrder b.priority ≤ priorityOrder a.priority) := by
  induction l with
  | nil => simp [insertByPriority]
  | cons x xs ih =>
    rcases List.pairwise_cons.mp hl with ⟨hx, hxs⟩
    unfold insertByPriority
    split_ifs with h
    · refine List.pairwise_cons.mpr ⟨?_, hl⟩
      intro y hy
      rcases List.mem_cons.mp hy with rfl | hy
      · exact h
      · exact le_trans (hx y hy) h
    · refine List.pairwise_cons.mpr ⟨?_, ih hxs⟩
      intro y hy
      rcases (mem_insertByPriority r y xs).mp hy with rfl | hy
      · exact le_of_lt (lt_of_not_le h)
      · exact hx y hy

lemma pairwise_sortByPriority (l : List RealRecommendation) :
    (sortByPriority l).Pairwise
      (fun a b => priorityOrder b.priority ≤ priorityOrder a.priority) := by
  induction l with
  | nil => simp [sortByPriority]
  | cons x xs ih => exact pairwise_insertByPriority x _ ih

lemma filter_insertByPriority (k : ℕ) (r : RealRecommendation)
    (l : List RealRecommendation) :
    (insertByPriority r l).filter (fun x => priorityOrder x.priority = k)
      = (r :: l).filter (fun x => priorityOrder x.priority = k) := by
  induction l with
  | nil => simp [insertByPriority]
  | cons x xs ih =>
    unfold insertByPriority
    split_ifs with h
    · rfl
    · by_cases hx : priorityOrder x.priority = k
      · by_cases hr : priorityOrder r.priority = k
        · exact absurd (le_of_eq (hx.trans hr.symm)) h
        · simp [List.filter_cons, hx, hr, ih]
      · simp [List.filter_cons, hx, ih]

lemma filter_sortByPriority (k : ℕ) (l : List RealRecommendation) :
    (sortByPriority l).filter (fun x => priorityOrder x.priority = k)
      = l.filter (fun x => priorityOrder x.priority = k) := by
  induction l with
  | nil => rfl
  | cons x xs ih =>
    rw [sortByPriority, filter_insertByPriority]
    by_cases hx : priorityOrder x.priority = k <;> simp [List.filter_cons, hx, ih]

end RealSarosService

/-- C1 (amended): the `SarosApiService` engine applies no final sort - its
output is exactly the per-position rule output in input order - while the
`RealSarosService` variant returns its pass output sorted by priority weight
descending (high before medium before low) with a stable sort: within each
priority the relative order of the pass output is preserved. -/
theorem priority_sort_in_real_variant_only :
    (∀ now positions, SarosApiService.generateRebalanceRecommendations now positions
        = SarosApiService.perPositionRecs now positions) ∧
    (∀ positions, (RealSarosService.generateRebalanceRecommendations positions).Pairwise
        (fun a b => RealSarosService.priorityOrder b.priority
          ≤ RealSarosService.priorityOrder a.priority)) ∧
    (∀ positions k,
      (RealSarosService.generateRebalanceRecommendations positions).filter
          (fun r => RealSarosService.priorityOrder r.priority = k)
        = (RealSarosService.recommendationPass positions).filter
          (fun r => RealSarosService.priorityOrder r.priority = k)) :=
  ⟨fun now positions => SarosApiService.generate_eq_perPositionRecs now positions,
   fun positions => RealSarosService.pairwise_sortByPriority _,
   fun positions k => RealSarosService.filter_sortByPriority k _⟩

/-- Counterexample to C1 as stated: on a fee-rule-only position followed by
an out-of-range position, `SarosApiService.generateRebalanceRecommendations`
returns a medium-priority recommendation before a high-priority one, so its
output is not sorted by priority. -/
theorem api_output_not_priority_sorted :
    (SarosApiService.generateRebalanceRecommendations 0
        [feePosition, outOfRangePosition]).map (fun r => r.priority)
      = [Priority.medium, Priority.high] ∧
    ¬ (SarosApiService.generateRebalanceRecommendations 0
        [feePosition, outOfRangePosition]).Pairwise
        (fun a b => RealSarosService.priorityOrder b.priority
          ≤ RealSarosService.priorityOrder a.priority) := by
  constructor
  · decide
  · decide

/-! ### Strategy simulators

Extra JS operations the simulators use on possibly non-finite values. -/

/-- `a - v` for finite `a`. -/
def jsSubL (a : ℚ) (v : JsVal) : JsVal :=
  match v with
  | JsVal.fin q => JsVal.fin (a - q)
  | JsVal.posInf => JsVal.negInf
  | JsVal.negInf => JsVal.posInf
  | JsVal.nan => JsVal.nan

/-- `Math.min(v, c)` for finite `c` (NaN propagates). -/
def jsMinC (v : JsVal) (c : ℚ) : JsVal :=
  match v with
  | JsVal.fin q => JsVal.fin (min q c)
  | JsVal.posInf => JsVal.fin c
  | JsVal.negInf => JsVal.negInf
  | JsVal.nan => JsVal.nan

/-- `Math.max(c, v)` for finite `c` (NaN propagates). -/
def jsMaxC (c : ℚ) (v : JsVal) : JsVal :=
  match v with
  | JsVal.fin q => JsVal.fin (max c q)
  | JsVal.posInf => JsVal.posInf
  | JsVal.negInf => JsVal.fin c
  | JsVal.nan => JsVal.nan

/-- `v / c` for a positive finite constant `c` (only used with `c = 100`). -/
def jsDivPos (v : JsVal) (c : ℚ) : JsVal :=
  match v with
  | JsVal.fin q => JsVal.fin (q / c)
  | JsVal.posInf => JsVal.posInf
  | JsVal.negInf => JsVal.negInf
  | JsVal.nan => JsVal.nan

/-- One row of `SarosApiService.simulateStrategy`'s `strategyConfigs` table. -/
structure ApiStrategyConfig where
  risk : ℚ
  expectedReturn : ℚ
  apr : ℚ
  binRange : ℚ
deriving DecidableEq, Repr

/-- The `details` record of the api simulator's result. -/
structure StrategyDetails where
  feesProjected : ℚ
  ilProjected : ℚ
  capitalEfficiency : ℚ
deriving DecidableEq, Repr

/-- Result of `SarosApiService.simulateStrategy`. -/
structure StrategySimulationResult where
  strategy : String
  expectedReturn : ℚ
  risk : ℚ
  timeHorizon : String
  confidence : ℚ
  riskScore : ℚ
  details : StrategyDetails
deriving DecidableEq, Repr

namespace SarosApiService

/-- The fixed `strategyConfigs` lookup of `SarosApiService.simulateStrategy`.
A JS object property access on any other key yields `undefined`. -/
def strategyConfigs (strategy : String) : Option ApiStrategyConfig :=
  if strategy = "narrow" then
    Option.some { risk := 0.8, expectedReturn := 0.12, apr := 65, binRange := 5 }
  else if strategy = "wide" then
    Option.some { risk := 0.3, expectedReturn := 0.06, apr := 25, binRange := 50 }
  else if strategy = "balanced" then
    Option.some { risk := 0.5, expectedReturn := 0.09, apr := 45, binRange := 20 }
  else
    Option.none

/-- `SarosApiService.simulateStrategy`.  The strategy name is the runtime
string value; for an unknown name `strategyConfigs[strategy]` is `undefined`
and the following `config.expectedReturn` access throws a TypeError, which
the (uncaught, async) call surfaces to the caller as a rejection. -/
def simulateStrategy (position : Position) (strategy : String) (timeHorizon : String) :
    Except String StrategySimulationResult :=
  match strategyConfigs strategy with
  | Option.none =>
    Except.error "TypeError reading expectedReturn of undefined strategy config"
  | Option.some config =>
    Except.ok
      { strategy := strategy,
        expectedReturn := config.expectedReturn,
        risk := config.risk,
        timeHorizon := timeHorizon,
        confidence := 0.75,
        riskScore := config.risk,
        details :=
          { feesProjected := config.expectedReturn * 0.8,
            ilProjected := if strategy = "narrow" then 0.05 else 0.02,
            capitalEfficiency := if strategy = "narrow" then 0.95 else 0.6 } }

end SarosApiService

/-- One row of `RealSarosService.simulateStrategy`'s config table. -/
structure RealStrategyConfig where
  rangeMultiplier : ℚ
  expectedAPY : ℚ
  riskScore : ℚ
deriving DecidableEq, Repr

/-- The `details` record of the real simulator's result. -/
structure RealStrategyDetails where
  feesProjected : JsVal
  ilProjected : JsVal
  capitalEfficiency : ℚ
deriving DecidableEq, Repr

/-- Result of `RealSarosService.simulateStrategy`. -/
structure RealStrategySimulationResult where
  strategy : String
  expectedReturn : JsVal
  riskScore : ℚ
  timeHorizon : String
  confidence : ℚ
  details : RealStrategyDetails
deriving DecidableEq, Repr

/-- `strategy.charAt(0).toUpperCase() + strategy.slice(1)`. -/
def capitalizeFirst (s : String) : String :=
  match s.data with
  | [] => ""
  | c :: cs => String.mk (c.toUpper :: cs)

namespace RealSarosService

/-- The fixed config table of `RealSarosService.simulateStrategy`. -/
def strategyConfigs (strategy : String) : Option RealStrategyConfig :=
  if strategy = "conservative" then
    Option.some { rangeMultiplier := 0.2, expectedAPY := 15, riskScore := 2 }
  else if strategy = "balanced" then
    Option.some { rangeMultiplier := 0.1, expectedAPY := 25, riskScore := 5 }
  else if strategy = "aggressive" then
    Option.some { rangeMultiplier := 0.05, expectedAPY := 40, riskScore := 8 }
  else
    Option.none

/-- `RealSarosService.estimateVolatility`: `(max - min) / current * 2`,
capped by `Math.min(.., 0.5)`; the division is unguarded. -/
def estimateVolatility (position : Position) : JsVal :=
  let rangeSize := jsDiv (position.priceRange.max - position.priceRange.min)
    position.priceRange.current
  jsMinC (jsMul rangeSize 2) 0.5

/-- `RealSarosService.simulateStrategy`.  `rand` is the observed
`Math.random()` draw used for the confidence band.  For an unknown strategy
name the `config.expectedAPY` access throws inside the `try`, and the `catch`
rethrows a wrapped error - the call still fails, it never falls back to a
default profile. -/
def simulateStrategy (position : Position) (strategy : String)
    (timeHorizon : Option String) (rand : ℚ) :
    Except String RealStrategySimulationResult :=
  match strategyConfigs strategy with
  | Option.none =>
    Except.error "Strategy simulation failed: TypeError reading expectedAPY of undefined strategy config"
  | Option.some config =>
    let baseValue := position.totalLiquidity
    let currentVolatility := estimateVolatility position
    let adjustedAPY :=
      jsMul (jsSubL 1 (jsMul currentVolatility config.rangeMultiplier)) config.expectedAPY
    Except.ok
      { strategy := capitalizeFirst strategy,
        expectedReturn := jsDivPos (jsMaxC 5 (jsMinC adjustedAPY 100)) 100,
        riskScore := config.riskScore,
        timeHorizon := timeHorizon.getD "30d",
        confidence := 0.75 + rand * 0.2,
        details :=
          { feesProjected := jsMul (jsDivPos (jsMul adjustedAPY baseValue) 100) 0.25,
            ilProjected := jsMul (jsMul currentVolatility config.rangeMultiplier) baseValue,
            capitalEfficiency := config.expectedAPY / 100 / config.riskScore } }

end RealSarosService

/-- C7: passing a strategy name outside the known profile set to either
simulator makes the call fail with an error surfaced to the caller (the
unknown-strategy condition the spec calls `InvalidStrategy`); neither
simulator silently substitutes a default profile or returns a result. -/
theorem unknown_strategy_fails (position : Position) (s timeHorizon : String) (rand : ℚ)
    (hapi : s ∉ (["narrow", "wide", "balanced"] : List String))
    (hreal : s ∉ (["conservative", "aggressive", "balanced"] : List String)) :
    (∃ e, SarosApiService.simulateStrategy position s timeHorizon = Except.error e) ∧
    (∃ e, RealSarosService.simulateStrategy position s (Option.some timeHorizon) rand
        = Except.error e) := by
  obtain ⟨h1, h2, h3⟩ : s ≠ "narrow" ∧ s ≠ "wide" ∧ s ≠ "balanced" := by
    simpa [not_or] using hapi
  obtain ⟨h4, h5, _⟩ : s ≠ "conservative" ∧ s ≠ "aggressive" ∧ s ≠ "balanced" := by
    simpa [not_or] using hreal
  have hca : SarosApiService.strategyConfigs s = Option.none := by
    simp [SarosApiService.strategyConfigs, h1, h2, h3]
  have hcr : RealSarosService.strategyConfigs s = Option.none := by
    simp [RealSarosService.strategyConfigs, h3, h4, h5]
  constructor
  · exact ⟨"TypeError reading expectedReturn of undefined strategy config",
      by unfold SarosApiService.simulateStrategy; rw [hca]⟩
  · exact ⟨"Strategy simulation failed: TypeError reading expectedAPY of undefined strategy config",
      by unfold RealSarosService.simulateStrategy; rw [hcr]⟩

/-- Witness for C7 at the unknown strategy name `momentum`. -/
theorem unknown_strategy_fails_witness :
    (∃ e, SarosApiService.simulateStrategy feePosition "momentum" "30d" = Except.error e) ∧
    (∃ e, RealSarosService.simulateStrategy feePosition "momentum" (Option.some "30d") 0
        = Except.error e) :=
  unknown_strategy_fails feePosition "momentum" "30d" 0 (by decide) (by decide)

/-! ### The data-conversion path (walletService.ts) -/

/-- The shape the pool-position API returns, as consumed by
`convertPoolPositionsToPositions`. -/
structure SarosPoolPosition where
  pair_id : String
  total_liquidity : ℚ
  total_token_x : ℚ
  total_token_y : ℚ
  fees_24h : ℚ
  apr_24h : ℚ
  bin_step : ℚ
  active_bin_id : ℤ
deriving DecidableEq, Repr

namespace SarosApiService

/-- `currentValue` as computed by `convertPoolPositionsToPositions`. -/
def convertedCurrentValue (poolPos : SarosPoolPosition) : ℚ :=
  poolPos.total_token_x + poolPos.total_token_y

/-- The `pnl` field of the converted position. -/
def convertedPnl (poolPos : SarosPoolPosition) : ℚ :=
  convertedCurrentValue poolPos - poolPos.total_liquidity

/-- The `pnlPercentage` field of the converted position:
`((currentValue - total_liquidity) / total_liquidity) * 100`, with no guard
on the denominator. -/
def convertedPnlPercentage (poolPos : SarosPoolPosition) : JsVal :=
  jsMul (jsDiv (convertedCurrentValue poolPos - poolPos.total_liquidity)
    poolPos.total_liquidity) 100

end SarosApiService

lemma jsMul_jsDiv_zero_not_finite (a c : ℚ) :
    (jsMul (jsDiv a 0) c).isFinite = false := by
  have h0 : ¬ ((0 : ℚ) ≠ 0) := by simp
  unfold jsDiv
  rw [if_neg h0]
  by_cases ha : 0 < a
  · rw [if_pos ha]
    unfold jsMul
    split_ifs <;> rfl
  · rw [if_neg ha]
    by_cases ha' : a < 0
    · rw [if_pos ha']
      unfold jsMul
      split_ifs <;> rfl
    · rw [if_neg ha']
      rfl

/-- C9 (amended): the converted `pnlPercentage` equals
`pnl / (currentValue - pnl) * 100` whenever that denominator is nonzero, but
for a zero denominator the division is unguarded: the result is a non-finite
JS value (Infinity, -Infinity or NaN), not 0. -/
theorem pnl_percentage_formula (poolPos : SarosPoolPosition) :
    (SarosApiService.convertedCurrentValue poolPos - SarosApiService.convertedPnl poolPos ≠ 0 →
      SarosApiService.convertedPnlPercentage poolPos
        = JsVal.fin (SarosApiService.convertedPnl poolPos
            / (SarosApiService.convertedCurrentValue poolPos
                - SarosApiService.convertedPnl poolPos) * 100)) ∧
    (SarosApiService.convertedCurrentValue poolPos - SarosApiService.convertedPnl poolPos = 0 →
      (SarosApiService.convertedPnlPercentage poolPos).isFinite = false) := by
  have hden : SarosApiService.convertedCurrentValue poolPos - SarosApiService.convertedPnl poolPos
      = poolPos.total_liquidity := by
    unfold SarosApiService.convertedPnl
    ring
  constructor
  · intro h
    rw [hden] at h
    unfold SarosApiService.convertedPnlPercentage
    rw [hden]
    unfold SarosApiService.convertedPnl
    simp [jsDiv, jsMul, h]
  · intro h
    rw [hden] at h
    unfold SarosApiService.convertedPnlPercentage
    rw [h]
    exact jsMul_jsDiv_zero_not_finite _ _

/-- Converted pool position with nonzero deployed liquidity: the formula
case of C9. -/
def samplePoolPosition : SarosPoolPosition :=
  { pair_id := "pool-a", total_liquidity := 1000, total_token_x := 700,
    total_token_y := 550, fees_24h := 10, apr_24h := 20, bin_step := 1,
    active_bin_id := 100 }

/-- Converted pool position with `total_liquidity = 0`: zero denominator. -/
def zeroLiquidityPoolPosition : SarosPoolPosition :=
  { pair_id := "pool-z", total_liquidity := 0, total_token_x := 5,
    total_token_y := 0, fees_24h := 0, apr_24h := 0, bin_step := 1,
    active_bin_id := 100 }

/-- Witness for C9's amended statement at both concrete cases. -/
theorem pnl_percentage_formula_witness :
    SarosApiService.convertedPnlPercentage samplePoolPosition = JsVal.fin 25 ∧
    (SarosApiService.convertedPnlPercentage zeroLiquidityPoolPosition).isFinite = false := by
  have h1 : SarosApiService.convertedCurrentValue samplePoolPosition
      - SarosApiService.convertedPnl samplePoolPosition ≠ 0 := by
    norm_num [SarosApiService.convertedCurrentValue, SarosApiService.convertedPnl,
      samplePoolPosition]
  have h2 : SarosApiService.convertedCurrentValue zeroLiquidityPoolPosition
      - SarosApiService.convertedPnl zeroLiquidityPoolPosition = 0 := by
    norm_num [SarosApiService.convertedCurrentValue, SarosApiService.convertedPnl,
      zeroLiquidityPoolPosition]
  refine ⟨?_, (pnl_percentage_formula zeroLiquidityPoolPosition).2 h2⟩
  have h := (pnl_percentage_formula samplePoolPosition).1 h1
  rw [h]
  norm_num [SarosApiService.convertedCurrentValue, SarosApiService.convertedPnl,
    samplePoolPosition, JsVal.fin.injEq]

/-- Counterexample to C9 as stated: at `total_liquidity = 0` the denominator
`currentValue - pnl` is zero, and the computed `pnlPercentage` is `Infinity`,
not the claimed 0. -/
theorem pnl_percentage_not_guarded :
    SarosApiService.convertedCurrentValue zeroLiquidityPoolPosition
        - SarosApiService.convertedPnl zeroLiquidityPoolPosition = 0 ∧
    SarosApiService.convertedPnlPercentage zeroLiquidityPoolPosition ≠ JsVal.fin 0 ∧
    SarosApiService.convertedPnlPercentage zeroLiquidityPoolPosition = JsVal.posInf := by
  have hpct : SarosApiService.convertedPnlPercentage zeroLiquidityPoolPosition
      = JsVal.posInf := by
    norm_num [SarosApiService.convertedPnlPercentage, SarosApiService.convertedCurrentValue,
      zeroLiquidityPoolPosition, jsDiv, jsMul]
  refine ⟨?_, ?_, hpct⟩
  · norm_num [SarosApiService.convertedCurrentValue, SarosApiService.convertedPnl,
      zeroLiquidityPoolPosition]
  · rw [hpct]
    simp

/-! ### Portfolio aggregation -/

/-- The `summary` record of `PortfolioData`. -/
structure PortfolioSummary where
  totalActivePositions : ℕ
  totalUnclaimedFees : ℚ
  averageAPR : JsVal
deriving DecidableEq, Repr

/-- Portfolio roll-up as built by `SarosSdkService.calculatePortfolioData`. -/
structure PortfolioData where
  totalValue : ℚ
  totalValueChange : ℚ
  totalFeesEarned : ℚ
  totalPnL : ℚ
  totalPnLPercentage : JsVal
  avgApy : JsVal
  summary : PortfolioSummary
deriving DecidableEq, Repr

namespace SarosSdkService

/-- `SarosSdkService.calculatePortfolioData`: reduce-sums over the position
list, with the average APR division guarded by `positions.length > 0`. -/
def calculatePortfolioData (positions : List Position) : PortfolioData :=
  let totalValue := positions.foldl (fun sum pos => sum + pos.currentValue) 0
  let totalPnL := positions.foldl (fun sum pos => sum + pos.pnl) 0
  let totalUnclaimedFees := positions.foldl (fun sum pos => sum + pos.unclaimedFees) 0
  let averageAPR : JsVal :=
    if 0 < positions.length then
      jsDiv (positions.foldl (fun sum pos => sum + pos.apr) 0) (positions.length : ℚ)
    else JsVal.fin 0
  { totalValue := totalValue,
    totalValueChange := 0,
    totalFeesEarned := totalUnclaimedFees,
    totalPnL := totalPnL,
    totalPnLPercentage :=
      if 0 < totalValue then jsMul (jsDiv totalPnL (totalValue - totalPnL)) 100
      else JsVal.fin 0,
    avgApy := averageAPR,
    summary := { totalActivePositions := positions.length,
                 totalUnclaimedFees := totalUnclaimedFees,
                 averageAPR := averageAPR } }

end SarosSdkService

namespace RealSarosService

/-- The `avgApy` computation of `RealSarosService.getPortfolioData`, guarded
by `positions.length > 0`. -/
def avgApy (positions : List Position) : JsVal :=
  if 0 < positions.length then
    jsDiv (positions.foldl (fun sum pos => sum + pos.currentAPY) 0) (positions.length : ℚ)
  else JsVal.fin 0

end RealSarosService

/-- C10: on the empty position list both portfolio aggregations return 0 for
the average APR/APY and 0 for the summed totals, and for every input list the
guarded average division has a nonzero denominator, so it always produces a
finite value - never a division-by-zero NaN or infinity. -/
theorem empty_portfolio_aggregation_is_zero :
    (SarosSdkService.calculatePortfolioData []).avgApy = JsVal.fin 0 ∧
    (SarosSdkService.calculatePortfolioData []).summary.averageAPR = JsVal.fin 0 ∧
    (SarosSdkService.calculatePortfolioData []).totalValue = 0 ∧
    (SarosSdkService.calculatePortfolioData []).totalPnL = 0 ∧
    (SarosSdkService.calculatePortfolioData []).totalFeesEarned = 0 ∧
    RealSarosService.avgApy [] = JsVal.fin 0 ∧
    (∀ positions, ((SarosSdkService.calculatePortfolioData positions).avgApy).isFinite = true) ∧
    (∀ positions, (RealSarosService.avgApy positions).isFinite = true) := by
  refine ⟨by decide, by decide, by decide, by decide, by decide, by decide, ?_, ?_⟩
  · intro positions
    unfold SarosSdkService.calculatePortfolioData
    dsimp only
    split_ifs with h
    · have hne : ((positions.length : ℚ)) ≠ 0 := by
        exact_mod_cast Nat.pos_iff_ne_zero.mp h
      simp [jsDiv, hne, JsVal.isFinite]
    · simp [JsVal.isFinite]
  · intro positions
    unfold RealSarosService.avgApy
    split_ifs with h
    · have hne : ((positions.length : ℚ)) ≠ 0 := by
        exact_mod_cast Nat.pos_iff_ne_zero.mp h
      simp [jsDiv, hne, JsVal.isFinite]
    · simp [JsVal.isFinite]

end Saros
